import Mathlib

/-!
Verification of the global progressive tax calculator.

The embedding follows `streamlit_app.py`:

* `global_tax_calculator` (the bracket solver) is pure field arithmetic on the
  fixed economy constants, embedded over `ℚ` so that every equality claimed of
  it can be settled exactly.
* `create_tax_function` builds the marginal-rate curve by linear interpolation
  of four anchor points in log space (`np.interp` over
  `log(max(x_points, 1))`), with a hard `1.0` at and above the income cap;
  it is embedded over `ℝ` as `tax_curve`, with `interp_log_anchors`
  spelling out `np.interp` on the four fixed anchors and `ramp` the linear
  segment formula used by `np.interp`.
* `calculate_personal_outcome` integrates the curve with the fixed
  10,000-point rule (`np.linspace` / `np.diff` / `np.insert`), embedded as
  `tax_integral` over `increments` and `step_size`, then applies the cap
  surcharge, the UBI transfer, the cap clamp and the zero-income guards.
-/

namespace GlobalTax

/-! ### Economy constants (lines 7-14 of the source) -/

def population : ℚ := 8230000000

def world_gdp : ℚ := 97800000000000

def share_90_99 : ℚ := 0.314

def share_99_999 : ℚ := 0.118

def share_top001 : ℚ := 0.086

def top10_share : ℚ := share_90_99 + share_99_999 + share_top001

/-! ### BracketSolver: `global_tax_calculator` (lines 6-53) -/

def ubi_yearly (basic_income : ℚ) : ℚ := basic_income * 12 * population

def total_needed (basic_income overhead : ℚ) : ℚ :=
  ubi_yearly basic_income * (1 + overhead)

def required_share_gdp (basic_income overhead : ℚ) : ℚ :=
  total_needed basic_income overhead / world_gdp

def avg_required_on_top10 (basic_income overhead : ℚ) : ℚ :=
  required_share_gdp basic_income overhead / top10_share

def scaled_multiplier (m progression_strength : ℚ) : ℚ :=
  1 + (m - 1) * progression_strength / 3

def weighted_avg (progression_strength : ℚ) : ℚ :=
  (share_90_99 * scaled_multiplier 0.35 progression_strength
    + share_99_999 * scaled_multiplier 1.5 progression_strength
    + share_top001 * scaled_multiplier 2.7 progression_strength) / top10_share

def scale_factor (basic_income overhead progression_strength : ℚ) : ℚ :=
  avg_required_on_top10 basic_income overhead / weighted_avg progression_strength

def cap_tax_revenue (basic_income : ℚ) (income_cap_factor : Option ℚ) : ℚ :=
  match income_cap_factor with
  | none => 0
  | some f =>
      let cap_yearly := basic_income * f * 12
      let avg_top001_income := world_gdp * share_top001 / (population * 0.001)
      if avg_top001_income > cap_yearly then
        (avg_top001_income - cap_yearly) * (population * 0.001)
      else 0

structure SolverResult where
  ubi_yearly : ℚ
  total_needed : ℚ
  required_share_gdp : ℚ
  avg_required_on_top10 : ℚ
  rate_90_99 : ℚ
  rate_99_999 : ℚ
  rate_top001 : ℚ
  cap_tax_revenue : ℚ
  cap_monthly : Option ℚ

def global_tax_calculator (basic_income overhead : ℚ)
    (income_cap_factor : Option ℚ) (progression_strength : ℚ) : SolverResult :=
  { ubi_yearly := ubi_yearly basic_income
    total_needed := total_needed basic_income overhead
    required_share_gdp := required_share_gdp basic_income overhead
    avg_required_on_top10 := avg_required_on_top10 basic_income overhead
    rate_90_99 :=
      scaled_multiplier 0.35 progression_strength
        * scale_factor basic_income overhead progression_strength
    rate_99_999 :=
      scaled_multiplier 1.5 progression_strength
        * scale_factor basic_income overhead progression_strength
    rate_top001 :=
      scaled_multiplier 2.7 progression_strength
        * scale_factor basic_income overhead progression_strength
    cap_tax_revenue := cap_tax_revenue basic_income income_cap_factor
    cap_monthly :=
      match income_cap_factor with
      | none => none
      | some f => if f = 0 then none else some (basic_income * f) }

/-! ### TaxCurveBuilder: `create_tax_function` (lines 56-73)

The anchor incomes are `[0, 15000, 55000, 200000]` mapped through
`log(max(·, 1))`, so the interpolation nodes are
`[0, log 15000, log 55000, log 200000]` with values
`[0, r1, r2, r3]`.  `ramp a b va vb` is the linear segment formula used by
`np.interp` on one interval, and `interp_log_anchors` is `np.interp` on the
four fixed nodes (clamping to the boundary value outside the node range). -/

noncomputable def ramp (a b va vb t : ℝ) : ℝ := va + (vb - va) * ((t - a) / (b - a))

noncomputable def interp_log_anchors (r1 r2 r3 t : ℝ) : ℝ :=
  if t ≤ 0 then 0
  else if t ≤ Real.log 15000 then ramp 0 (Real.log 15000) 0 r1 t
  else if t ≤ Real.log 55000 then ramp (Real.log 15000) (Real.log 55000) r1 r2 t
  else if t ≤ Real.log 200000 then ramp (Real.log 55000) (Real.log 200000) r2 r3 t
  else r3

noncomputable def tax_curve (r1 r2 r3 basic_income : ℝ) (income_cap_factor : Option ℝ)
    (annual_income : ℝ) : ℝ :=
  match income_cap_factor with
  | some f =>
      if annual_income ≥ basic_income * f * 12 then 1
      else interp_log_anchors r1 r2 r3 (Real.log (max annual_income 1))
  | none => interp_log_anchors r1 r2 r3 (Real.log (max annual_income 1))

/-! ### LiabilityIntegrator: `calculate_personal_outcome` (lines 76-108)

`np.linspace(0, T, 10000)` samples `increments i = T * i / 9999` for
`i = 0, …, 9999`; `np.diff(np.insert(increments, 0, 0))` gives
`step_size i = increments i - increments (i-1)` with a leading `increments 0 - 0`;
the liability is the dot product of step sizes with the curve sampled at the
increments. -/

noncomputable def increments (taxable_income : ℝ) (i : ℕ) : ℝ :=
  taxable_income * i / 9999

noncomputable def step_size (taxable_income : ℝ) (i : ℕ) : ℝ :=
  increments taxable_income i - (if i = 0 then 0 else increments taxable_income (i - 1))

noncomputable def tax_integral (curve : ℝ → ℝ) (taxable_income : ℝ) : ℝ :=
  ∑ i ∈ Finset.range 10000, step_size taxable_income i * curve (increments taxable_income i)

structure PersonalOutcome where
  tax_rate : ℝ
  tax_amount : ℝ
  after_tax_income_monthly : ℝ
  diff_eur : ℝ
  diff_pct : ℝ

noncomputable def calculate_personal_outcome (monthly_income basic_income : ℝ)
    (curve : ℝ → ℝ) (income_cap_factor : Option ℝ) : PersonalOutcome :=
  let yearly_income := monthly_income * 12
  let taxable_income :=
    match income_cap_factor with
    | some f => min yearly_income (basic_income * f * 12)
    | none => yearly_income
  let tax_quadrature := tax_integral curve taxable_income
  let tax_amount :=
    match income_cap_factor with
    | some f =>
        if yearly_income > basic_income * f * 12 then
          tax_quadrature + (yearly_income - basic_income * f * 12)
        else tax_quadrature
    | none => tax_quadrature
  let after_tax_income := yearly_income - tax_amount + basic_income * 12
  let after_tax_capped :=
    match income_cap_factor with
    | some f => min after_tax_income (basic_income * f * 12 + basic_income * 12)
    | none => after_tax_income
  { tax_rate := if yearly_income > 0 then tax_amount / yearly_income * 100 else 0
    tax_amount := tax_amount / 12
    after_tax_income_monthly := after_tax_capped / 12
    diff_eur := (after_tax_capped - yearly_income) / 12
    diff_pct :=
      if yearly_income > 0 then (after_tax_capped - yearly_income) / yearly_income * 100
      else 0 }

/-- Modelled from the spec: the fixed-resolution right-endpoint Riemann sum
with 10,000 evenly spaced sample points on `[0, T]` — 9,999 equal
subintervals, each contributing its width `T / 9999` times the curve's value
at its right endpoint `T * (i + 1) / 9999`. -/
noncomputable def riemann_right_sum (curve : ℝ → ℝ) (T : ℝ) : ℝ :=
  ∑ i ∈ Finset.range 9999, (T / 9999) * curve (T * (i + 1) / 9999)

/-- The population-share-weighted sum of the scaled multipliers is positive for
any non-negative progression strength, so the rescale in step 6 never divides
by zero on the solver's domain. -/
lemma weighted_avg_pos (p : ℚ) (hp : 0 ≤ p) : 0 < weighted_avg p := by
  unfold weighted_avg scaled_multiplier top10_share share_90_99 share_99_999 share_top001
  rw [div_pos_iff]
  left
  constructor
  · nlinarith
  · norm_num

lemma log15000_pos : (0 : ℝ) < Real.log 15000 := Real.log_pos (by norm_num)

lemma log15000_lt_log55000 : Real.log 15000 < Real.log 55000 :=
  Real.log_lt_log (by norm_num) (by norm_num)

lemma log55000_lt_log200000 : Real.log 55000 < Real.log 200000 :=
  Real.log_lt_log (by norm_num) (by norm_num)

lemma ramp_left (a b va vb : ℝ) : ramp a b va vb a = va := by
  simp [ramp]

lemma ramp_right {a b : ℝ} (hab : a ≠ b) (va vb : ℝ) : ramp a b va vb b = vb := by
  rw [ramp, div_self (sub_ne_zero.mpr (Ne.symm hab)), mul_one]
  ring

lemma ramp_mono {a b va vb : ℝ} (hab : a < b) (hv : va ≤ vb) {t1 t2 : ℝ}
    (h : t1 ≤ t2) : ramp a b va vb t1 ≤ ramp a b va vb t2 := by
  unfold ramp
  have hba : (0 : ℝ) < b - a := sub_pos.mpr hab
  have h1 : (t1 - a) / (b - a) ≤ (t2 - a) / (b - a) :=
    (div_le_div_right hba).mpr (by linarith)
  have h2 := mul_le_mul_of_nonneg_left h1 (sub_nonneg.mpr hv)
  linarith

lemma ramp_le_right {a b va vb : ℝ} (hab : a < b) (hv : va ≤ vb) {t : ℝ}
    (ht : t ≤ b) : ramp a b va vb t ≤ vb := by
  have := ramp_mono hab hv ht
  rwa [ramp_right (ne_of_lt hab)] at this

lemma left_le_ramp {a b va vb : ℝ} (hab : a < b) (hv : va ≤ vb) {t : ℝ}
    (ht : a ≤ t) : va ≤ ramp a b va vb t := by
  have := ramp_mono hab hv ht
  rwa [ramp_left] at this

section InterpBounds

variable {r1 r2 r3 t t1 t2 : ℝ}

lemma interp_nonneg (h1 : 0 ≤ r1) (h12 : r1 ≤ r2) (h23 : r2 ≤ r3) (t : ℝ) :
    0 ≤ interp_log_anchors r1 r2 r3 t := by
  unfold interp_log_anchors
  split_ifs with ha hb hc hd
  · exact le_refl 0
  · exact left_le_ramp log15000_pos h1 (le_of_lt (not_le.mp ha))
  · exact le_trans h1 (left_le_ramp log15000_lt_log55000 h12 (le_of_lt (not_le.mp hb)))
  · exact le_trans (le_trans h1 h12)
      (left_le_ramp log55000_lt_log200000 h23 (le_of_lt (not_le.mp hc)))
  · exact le_trans (le_trans h1 h12) h23

lemma interp_le_r1 (h1 : 0 ≤ r1) (ht : t ≤ Real.log 15000) :
    interp_log_anchors r1 r2 r3 t ≤ r1 := by
  unfold interp_log_anchors
  split_ifs with ha
  · exact h1
  · exact ramp_le_right log15000_pos h1 ht

lemma r1_le_interp (h12 : r1 ≤ r2) (h23 : r2 ≤ r3) (ht : Real.log 15000 ≤ t) :
    r1 ≤ interp_log_anchors r1 r2 r3 t := by
  unfold interp_log_anchors
  split_ifs with ha hb hc hd
  · exact absurd ha (by push_neg; linarith [log15000_pos])
  · have heq : t = Real.log 15000 := le_antisymm hb ht
    rw [heq, ramp_right (ne_of_lt log15000_pos)]
  · exact left_le_ramp log15000_lt_log55000 h12 ht
  · exact le_trans h12 (left_le_ramp log55000_lt_log200000 h23 (le_of_lt (not_le.mp hc)))
  · exact le_trans h12 h23

lemma interp_le_r2 (h1 : 0 ≤ r1) (h12 : r1 ≤ r2) (ht : t ≤ Real.log 55000) :
    interp_log_anchors r1 r2 r3 t ≤ r2 := by
  unfold interp_log_anchors
  split_ifs with ha hb
  · exact le_trans h1 h12
  · exact le_trans (ramp_le_right log15000_pos h1 hb) h12
  · exact ramp_le_right log15000_lt_log55000 h12 ht

lemma r2_le_interp (h12 : r1 ≤ r2) (h23 : r2 ≤ r3) (ht : Real.log 55000 ≤ t) :
    r2 ≤ interp_log_anchors r1 r2 r3 t := by
  unfold interp_log_anchors
  split_ifs with ha hb hc hd
  · exact absurd ha (by push_neg; linarith [log15000_pos, log15000_lt_log55000])
  · exact absurd hb (by push_neg; linarith [log15000_lt_log55000])
  · have heq : t = Real.log 55000 := le_antisymm hc ht
    rw [heq, ramp_right (ne_of_lt log15000_lt_log55000)]
  · exact left_le_ramp log55000_lt_log200000 h23 ht
  · exact h23

lemma interp_le_r3 (h1 : 0 ≤ r1) (h12 : r1 ≤ r2) (h23 : r2 ≤ r3) (t : ℝ) :
    interp_log_anchors r1 r2 r3 t ≤ r3 := by
  unfold interp_log_anchors
  split_ifs with ha hb hc hd
  · exact le_trans (le_trans h1 h12) h23
  · exact le_trans (le_trans (ramp_le_right log15000_pos h1 hb) h12) h23
  · exact le_trans (ramp_le_right log15000_lt_log55000 h12 hc) h23
  · exact ramp_le_right log55000_lt_log200000 h23 hd
  · exact le_refl r3

/-- Monotonicity of the four-anchor interpolation in the query point, given a
non-negative, non-decreasing set of anchor values. -/
lemma interp_mono (h1 : 0 ≤ r1) (h12 : r1 ≤ r2) (h23 : r2 ≤ r3)
    (h : t1 ≤ t2) : interp_log_anchors r1 r2 r3 t1 ≤ interp_log_anchors r1 r2 r3 t2 := by
  rcases le_or_lt t2 0 with h2a | h2a
  · have h1a : t1 ≤ 0 := le_trans h h2a
    unfold interp_log_anchors
    rw [if_pos h1a, if_pos h2a]
  rcases le_or_lt t2 (Real.log 15000) with h2b | h2b
  · rcases le_or_lt t1 0 with h1a | h1a
    · have : interp_log_anchors r1 r2 r3 t1 = 0 := by
        unfold interp_log_anchors; rw [if_pos h1a]
      rw [this]
      exact interp_nonneg h1 h12 h23 t2
    · unfold interp_log_anchors
      rw [if_neg (not_le.mpr h1a), if_pos (le_trans h h2b),
        if_neg (not_le.mpr h2a), if_pos h2b]
      exact ramp_mono log15000_pos h1 h
  rcases le_or_lt t2 (Real.log 55000) with h2c | h2c
  · rcases le_or_lt t1 (Real.log 15000) with h1b | h1b
    · exact le_trans (interp_le_r1 h1 h1b) (r1_le_interp h12 h23 (le_of_lt h2b))
    · unfold interp_log_anchors
      rw [if_neg (by push_neg; linarith [log15000_pos]),
        if_neg (not_le.mpr h1b), if_pos (le_trans h h2c),
        if_neg (by push_neg; linarith [log15000_pos]),
        if_neg (not_le.mpr h2b), if_pos h2c]
      exact ramp_mono log15000_lt_log55000 h12 h
  rcases le_or_lt t2 (Real.log 200000) with h2d | h2d
  · rcases le_or_lt t1 (Real.log 55000) with h1c | h1c
    · exact le_trans (interp_le_r2 h1 h12 h1c) (r2_le_interp h12 h23 (le_of_lt h2c))
    · unfold interp_log_anchors
      rw [if_neg (by push_neg; linarith [log15000_pos, log15000_lt_log55000]),
        if_neg (by push_neg; linarith [log15000_lt_log55000]),
        if_neg (not_le.mpr h1c), if_pos (le_trans h h2d),
        if_neg (by push_neg; linarith [log15000_pos, log15000_lt_log55000]),
        if_neg (by push_neg; linarith [log15000_lt_log55000]),
        if_neg (not_le.mpr h2c), if_pos h2d]
      exact ramp_mono log55000_lt_log200000 h23 h
  · have ha2 : ¬ t2 ≤ 0 := by
      push_neg
      linarith [log15000_pos, log15000_lt_log55000, log55000_lt_log200000]
    have hb2 : ¬ t2 ≤ Real.log 15000 := by
      push_neg
      linarith [log15000_lt_log55000, log55000_lt_log200000]
    have hc2 : ¬ t2 ≤ Real.log 55000 := by
      push_neg
      linarith [log55000_lt_log200000]
    have htop : interp_log_anchors r1 r2 r3 t2 = r3 := by
      unfold interp_log_anchors
      rw [if_neg ha2, if_neg hb2, if_neg hc2, if_neg (not_le.mpr h2d)]
    rw [htop]
    exact interp_le_r3 h1 h12 h23 t1

end InterpBounds

/-- At a zero integration bound every sample point and every step size is 0,
so the quadrature is 0. -/
lemma tax_integral_zero (curve : ℝ → ℝ) : tax_integral curve 0 = 0 := by
  unfold tax_integral step_size increments
  simp

/-- C1: for every solver input (with the fixed positive constants) and
non-negative progression strength, the population-share-weighted average of
the three bracket rates returned by `global_tax_calculator` — the sum over the
three segments of (segment share / top10_share) times its rate — exactly
equals the returned `avg_required_on_top10`, in exact rational arithmetic. -/
theorem rates_weighted_average_eq_target (bi o : ℚ) (capOpt : Option ℚ) (p : ℚ)
    (hp : 0 ≤ p) :
    share_90_99 / top10_share * (global_tax_calculator bi o capOpt p).rate_90_99
      + share_99_999 / top10_share * (global_tax_calculator bi o capOpt p).rate_99_999
      + share_top001 / top10_share * (global_tax_calculator bi o capOpt p).rate_top001
      = (global_tax_calculator bi o capOpt p).avg_required_on_top10 := by
  have hW : weighted_avg p ≠ 0 := ne_of_gt (weighted_avg_pos p hp)
  have key : share_90_99 / top10_share
        * (scaled_multiplier 0.35 p * (avg_required_on_top10 bi o / weighted_avg p))
      + share_99_999 / top10_share
        * (scaled_multiplier 1.5 p * (avg_required_on_top10 bi o / weighted_avg p))
      + share_top001 / top10_share
        * (scaled_multiplier 2.7 p * (avg_required_on_top10 bi o / weighted_avg p))
      = weighted_avg p * (avg_required_on_top10 bi o / weighted_avg p) := by
    unfold weighted_avg
    ring
  simp only [global_tax_calculator, scale_factor]
  rw [key, mul_comm, div_mul_cancel₀ _ hW]

/-- Witness for C1 at the concrete default scenario. -/
theorem rates_weighted_average_eq_target_witness :
    (0 : ℚ) ≤ 3
      ∧ share_90_99 / top10_share * (global_tax_calculator 30 (1/10) none 3).rate_90_99
        + share_99_999 / top10_share * (global_tax_calculator 30 (1/10) none 3).rate_99_999
        + share_top001 / top10_share * (global_tax_calculator 30 (1/10) none 3).rate_top001
        = (global_tax_calculator 30 (1/10) none 3).avg_required_on_top10 :=
  ⟨by norm_num, rates_weighted_average_eq_target 30 (1/10) none 3 (by norm_num)⟩

/-- C2 counterexample: with bracket rates (1/2, 3/4, 1) and no cap, the curve
at annual income 1000 (which is in [0, 15000)) evaluates to
(1/2)·log 1000 / log 15000 > 0, so income below 15000/yr is not untaxed. -/
theorem tax_curve_below_15000_not_zero :
    tax_curve (1/2) (3/4) 1 30 none 1000 ≠ 0 := by
  have hmax : max (1000 : ℝ) 1 = 1000 := max_eq_left (by norm_num)
  have ht0 : (0 : ℝ) < Real.log 1000 := Real.log_pos (by norm_num)
  have htL : Real.log 1000 ≤ Real.log 15000 := Real.log_le_log (by norm_num) (by norm_num)
  simp only [tax_curve, hmax]
  unfold interp_log_anchors
  rw [if_neg (not_le.mpr ht0), if_pos htL]
  unfold ramp
  rw [show (0 : ℝ) + (1/2 - 0) * ((Real.log 1000 - 0) / (Real.log 15000 - 0))
      = 1/2 * (Real.log 1000 / Real.log 15000) from by ring]
  exact ne_of_gt (mul_pos (by norm_num) (div_pos ht0 log15000_pos))

/-- C2 amended: below the cap, the curve is exactly 0 only for annual incomes
`x ≤ 1`; for `1 < x < 15000` it log-interpolates between the anchors `(1, 0)`
and `(15000, r1)`, returning `r1 * log x / log 15000` (positive whenever
`r1 > 0`), rather than 0. -/
theorem tax_curve_below_first_anchor (r1 r2 r3 bi : ℝ) (capOpt : Option ℝ) (x : ℝ)
    (hx0 : 0 ≤ x) (hx : x < 15000) (hcap : ∀ f, capOpt = some f → x < bi * f * 12) :
    tax_curve r1 r2 r3 bi capOpt x
      = if x ≤ 1 then 0 else r1 * (Real.log x / Real.log 15000) := by
  have key : interp_log_anchors r1 r2 r3 (Real.log (max x 1))
      = if x ≤ 1 then 0 else r1 * (Real.log x / Real.log 15000) := by
    rcases le_or_lt x 1 with h1 | h1
    · rw [if_pos h1, max_eq_right h1, Real.log_one]
      unfold interp_log_anchors
      rw [if_pos (le_refl 0)]
    · rw [if_neg (not_le.mpr h1), max_eq_left (le_of_lt h1)]
      have ht0 : 0 < Real.log x := Real.log_pos h1
      have htL : Real.log x ≤ Real.log 15000 :=
        Real.log_le_log (by linarith) (le_of_lt hx)
      unfold interp_log_anchors
      rw [if_neg (not_le.mpr ht0), if_pos htL]
      unfold ramp
      ring
  cases capOpt with
  | none =>
      simp only [tax_curve]
      exact key
  | some f =>
      have hxf : x < bi * f * 12 := hcap f rfl
      simp only [tax_curve, ge_iff_le]
      rw [if_neg (not_le.mpr hxf)]
      exact key

/-- Witness for the amended C2 at `x = 1`, where the curve is 0. -/
theorem tax_curve_below_first_anchor_witness :
    (0 : ℝ) ≤ 1 ∧ (1 : ℝ) < 15000
      ∧ tax_curve (1/2) (3/4) 1 30 none 1
        = if (1 : ℝ) ≤ 1 then 0 else (1/2) * (Real.log 1 / Real.log 15000) :=
  ⟨by norm_num, by norm_num,
    tax_curve_below_first_anchor (1/2) (3/4) 1 30 none 1 (by norm_num) (by norm_num)
      (fun f hf => nomatch hf)⟩

/-- C3 counterexample: in the concrete scenario `basic_income = 30`,
`overhead = 0.10`, the exact value of `avg_required_on_top10` is
27159/422170 ≈ 0.06433, which is not ≈ 0.0633 — it misses 0.0633 by more
than 0.0005, ten times the rounding tolerance of the printed 4-decimal
figure. -/
theorem scenario_avg_rate_not_approx_0633 :
    0.0005 < |avg_required_on_top10 30 (1/10) - 0.0633| := by
  have h : avg_required_on_top10 30 (1/10) = 27159 / 422170 := by
    norm_num [avg_required_on_top10, required_share_gdp, total_needed, ubi_yearly,
      top10_share, world_gdp, population, share_90_99, share_99_999, share_top001]
  rw [h, abs_of_pos (by norm_num)]
  norm_num

/-- C3 amended: in the concrete scenario the solver returns
`ubi_yearly ≈ 2.9628e12`, `total_needed ≈ 3.2591e12`,
`required_share_gdp ≈ 0.0333` and `avg_required_on_top10 ≈ 0.0643`
(each within half an ulp of the quoted figure; the spec's `0.0633` is
corrected to `0.0643`). -/
theorem scenario_values_amended :
    (global_tax_calculator 30 (1/10) none 3).ubi_yearly = 2962800000000
      ∧ |(global_tax_calculator 30 (1/10) none 3).total_needed - 3259100000000| ≤ 50000000
      ∧ |(global_tax_calculator 30 (1/10) none 3).required_share_gdp - 0.0333| ≤ 0.00005
      ∧ |(global_tax_calculator 30 (1/10) none 3).avg_required_on_top10 - 0.0643| ≤ 0.00005 := by
  refine ⟨?_, ?_, ?_, ?_⟩ <;>
    norm_num [global_tax_calculator, abs_le, avg_required_on_top10,
      required_share_gdp, total_needed, ubi_yearly, top10_share, world_gdp,
      population, share_90_99, share_99_999, share_top001]

/-- C4: the quadrature performed by `calculate_personal_outcome` before the
cap surcharge — `tax_integral`, applied to `taxable_income` — equals the
spec's right-endpoint Riemann sum with 10,000 sample points / 9,999 equal
subintervals, and at `taxable_income = 0` it is 0. -/
theorem tax_integral_eq_riemann_right_sum (curve : ℝ → ℝ) (T : ℝ) :
    tax_integral curve T = riemann_right_sum curve T ∧ tax_integral curve 0 = 0 := by
  constructor
  · unfold tax_integral riemann_right_sum
    rw [show (10000 : ℕ) = 9999 + 1 from rfl, Finset.sum_range_succ']
    have hzero : step_size T 0 * curve (increments T 0) = 0 := by
      unfold step_size increments
      simp
    rw [hzero, add_zero]
    refine Finset.sum_congr rfl ?_
    intro i _
    have hstep : step_size T (i + 1) = T / 9999 := by
      unfold step_size increments
      rw [if_neg (Nat.succ_ne_zero i), Nat.add_sub_cancel]
      push_cast
      ring
    have hinc : increments T (i + 1) = T * (i + 1) / 9999 := by
      unfold increments
      push_cast
      ring
    rw [hstep, hinc]
  · exact tax_integral_zero curve

/-- C5: whenever an income cap is configured, the curve returned by
`create_tax_function` returns exactly `1.0` for every annual income at or
above `cap_yearly = basic_income * income_cap_factor * 12`. -/
theorem tax_curve_at_or_above_cap (r1 r2 r3 bi f x : ℝ) (hx : bi * f * 12 ≤ x) :
    tax_curve r1 r2 r3 bi (some f) x = 1 := by
  simp only [tax_curve, ge_iff_le]
  rw [if_pos hx]

/-- Witness for C5: cap factor 100 at basic income 30 gives `cap_yearly =
36000`, and the curve is 1 there. -/
theorem tax_curve_at_or_above_cap_witness :
    (30 : ℝ) * 100 * 12 ≤ 36000
      ∧ tax_curve 0.04 0.09 0.17 30 (some 100) 36000 = 1 :=
  ⟨by norm_num, tax_curve_at_or_above_cap 0.04 0.09 0.17 30 100 36000 (by norm_num)⟩

/-- C6: at the exact cap boundary (cap factor 100, basic income 30, monthly
income 3000, so yearly income 36000 = cap_yearly) the strict comparison
`yearly_income > cap_yearly` is false and no 100%-excess surcharge is added:
the returned (monthly) tax is the quadrature result alone. -/
theorem boundary_income_no_surcharge (curve : ℝ → ℝ) :
    (calculate_personal_outcome 3000 30 curve (some 100)).tax_amount
      = tax_integral curve 36000 / 12 := by
  simp only [calculate_personal_outcome]
  norm_num

/-- C7: with a cap configured, the monthly after-tax income returned by
`calculate_personal_outcome` never exceeds `cap_yearly / 12 + basic_income`,
no matter how large the gross income is, because the yearly after-tax income
is clamped to `cap_yearly + basic_income * 12`. -/
theorem capped_after_tax_bounded (m bi f : ℝ) (curve : ℝ → ℝ) (hm : 0 ≤ m) :
    (calculate_personal_outcome m bi curve (some f)).after_tax_income_monthly
      ≤ bi * f * 12 / 12 + bi := by
  have key : ∀ x : ℝ, min x (bi * f * 12 + bi * 12) / 12 ≤ bi * f * 12 / 12 + bi := by
    intro x
    have h1 : min x (bi * f * 12 + bi * 12) ≤ bi * f * 12 + bi * 12 := min_le_right _ _
    have h2 : min x (bi * f * 12 + bi * 12) / 12 ≤ (bi * f * 12 + bi * 12) / 12 :=
      (div_le_div_right (by norm_num)).mpr h1
    have h3 : (bi * f * 12 + bi * 12) / 12 = bi * f * 12 / 12 + bi := by ring
    linarith
  simp only [calculate_personal_outcome]
  exact key _

/-- Witness for C7 at monthly income 5000, basic income 30, cap factor 100. -/
theorem capped_after_tax_bounded_witness :
    (0 : ℝ) ≤ 5000
      ∧ (calculate_personal_outcome 5000 30 (fun _ => 0) (some 100)).after_tax_income_monthly
        ≤ 30 * 100 * 12 / 12 + 30 :=
  ⟨by norm_num, capped_after_tax_bounded 5000 30 100 (fun _ => 0) (by norm_num)⟩

/-- C8: for non-negative, non-decreasing bracket rates the curve returned by
`create_tax_function` is non-decreasing in annual income below the cap, and
everywhere when no cap is configured. -/
theorem tax_curve_monotone (r1 r2 r3 bi : ℝ) (capOpt : Option ℝ) (x1 x2 : ℝ)
    (h1 : 0 ≤ r1) (h12 : r1 ≤ r2) (h23 : r2 ≤ r3) (hx : x1 ≤ x2)
    (hcap : ∀ f, capOpt = some f → x2 < bi * f * 12) :
    tax_curve r1 r2 r3 bi capOpt x1 ≤ tax_curve r1 r2 r3 bi capOpt x2 := by
  have hmax : max x1 1 ≤ max x2 1 := max_le_max hx (le_refl 1)
  have hpos : (0 : ℝ) < max x1 1 := lt_of_lt_of_le one_pos (le_max_right x1 1)
  have hlog : Real.log (max x1 1) ≤ Real.log (max x2 1) := Real.log_le_log hpos hmax
  cases capOpt with
  | none =>
      simp only [tax_curve]
      exact interp_mono h1 h12 h23 hlog
  | some f =>
      have hx2 : x2 < bi * f * 12 := hcap f rfl
      have hx1 : x1 < bi * f * 12 := lt_of_le_of_lt hx hx2
      simp only [tax_curve, ge_iff_le]
      rw [if_neg (not_le.mpr hx1), if_neg (not_le.mpr hx2)]
      exact interp_mono h1 h12 h23 hlog

/-- Witness for C8 with rates (1/4, 1/2, 1), no cap, incomes 2 ≤ 3. -/
theorem tax_curve_monotone_witness :
    (0 : ℝ) ≤ 1/4 ∧ (1/4 : ℝ) ≤ 1/2 ∧ (1/2 : ℝ) ≤ 1 ∧ (2 : ℝ) ≤ 3
      ∧ tax_curve (1/4) (1/2) 1 30 none 2 ≤ tax_curve (1/4) (1/2) 1 30 none 3 :=
  ⟨by norm_num, by norm_num, by norm_num, by norm_num,
    tax_curve_monotone (1/4) (1/2) 1 30 none 2 3 (by norm_num) (by norm_num)
      (by norm_num) (by norm_num) (fun f hf => nomatch hf)⟩

/-- C9: at zero monthly income the guards return `tax_rate = 0` and
`diff_pct = 0` with no division by zero, the monthly tax is 0, and the
monthly after-tax income is exactly the basic income. -/
theorem zero_income_outcome (bi : ℝ) (curve : ℝ → ℝ) (capOpt : Option ℝ)
    (hcap : ∀ f, capOpt = some f → 0 ≤ bi * f * 12) :
    (calculate_personal_outcome 0 bi curve capOpt).tax_rate = 0
      ∧ (calculate_personal_outcome 0 bi curve capOpt).tax_amount = 0
      ∧ (calculate_personal_outcome 0 bi curve capOpt).after_tax_income_monthly = bi
      ∧ (calculate_personal_outcome 0 bi curve capOpt).diff_pct = 0 := by
  cases capOpt with
  | none =>
      simp only [calculate_personal_outcome]
      norm_num [tax_integral_zero]
  | some f =>
      have h0 : (0 : ℝ) ≤ bi * f * 12 := hcap f rfl
      have hmin : min (0 : ℝ) (bi * f * 12) = 0 := min_eq_left h0
      have hmin2 : min (bi * 12) (bi * f * 12 + bi * 12) = bi * 12 :=
        min_eq_left (by linarith)
      have hlt : ¬ ((0 : ℝ) > bi * f * 12) := not_lt.mpr h0
      simp only [calculate_personal_outcome]
      norm_num [hmin, hmin2, hlt, tax_integral_zero]

/-- Witness for C9 at basic income 30 with no cap. -/
theorem zero_income_outcome_witness :
    (calculate_personal_outcome 0 30 (fun _ => 0) none).tax_rate = 0
      ∧ (calculate_personal_outcome 0 30 (fun _ => 0) none).tax_amount = 0
      ∧ (calculate_personal_outcome 0 30 (fun _ => 0) none).after_tax_income_monthly = 30
      ∧ (calculate_personal_outcome 0 30 (fun _ => 0) none).diff_pct = 0 :=
  zero_income_outcome 30 (fun _ => 0) none (fun f hf => nomatch hf)

/-- C10: with no cap configured and overhead and progression strength held
fixed, every monetary output and all three bracket rates of
`global_tax_calculator` are homogeneous of degree 1 in `basic_income`:
scaling `basic_income` by `l ≥ 0` scales each of them by `l`. -/
theorem solver_homogeneous_in_basic_income (l b o p : ℚ) (hl : 0 ≤ l) (hb : 0 ≤ b) :
    (global_tax_calculator (l * b) o none p).ubi_yearly
        = l * (global_tax_calculator b o none p).ubi_yearly
      ∧ (global_tax_calculator (l * b) o none p).total_needed
        = l * (global_tax_calculator b o none p).total_needed
      ∧ (global_tax_calculator (l * b) o none p).required_share_gdp
        = l * (global_tax_calculator b o none p).required_share_gdp
      ∧ (global_tax_calculator (l * b) o none p).avg_required_on_top10
        = l * (global_tax_calculator b o none p).avg_required_on_top10
      ∧ (global_tax_calculator (l * b) o none p).rate_90_99
        = l * (global_tax_calculator b o none p).rate_90_99
      ∧ (global_tax_calculator (l * b) o none p).rate_99_999
        = l * (global_tax_calculator b o none p).rate_99_999
      ∧ (global_tax_calculator (l * b) o none p).rate_top001
        = l * (global_tax_calculator b o none p).rate_top001 := by
  simp only [global_tax_calculator, scale_factor, avg_required_on_top10,
    required_share_gdp, total_needed, ubi_yearly]
  refine ⟨by ring, by ring, by ring, by ring, by ring, by ring, by ring⟩

/-- Witness for C10 at `l = 2`, `b = 30`. -/
theorem solver_homogeneous_in_basic_income_witness :
    (0 : ℚ) ≤ 2 ∧ (0 : ℚ) ≤ 30
      ∧ (global_tax_calculator (2 * 30) (1/10) none 3).rate_90_99
        = 2 * (global_tax_calculator 30 (1/10) none 3).rate_90_99 :=
  ⟨by norm_num, by norm_num,
    (solver_homogeneous_in_basic_income 2 30 (1/10) 3 (by norm_num) (by norm_num)).2.2.2.2.1⟩

end GlobalTax
